import Mathlib

/-!
Verification of the blackhole concurrent logger pipeline: a shallow
embedding of the attribute data model (`include/blackhole/attribute.hpp`),
the composite logger core and its severity specialization
(`composite_logger_t`, `verbose_logger_t`), and the registry/builder
component, together with theorems settling the specified properties.
-/

namespace Blackhole

/-! ### Attribute values — src/include/blackhole/attribute.hpp

`value_t` is the borrowing variant type: `boost::variant<int64, double,
string_view>`.  `owned_t` transforms the same variant list by mapping
`string_view` to `std::string` (the `into_owned` metafunction); the other
alternatives are unchanged.  The payload of the `double` alternative is
kept abstract as a type parameter `F`: no claim inspects floating-point
values, only carries them through.  In the embedding both `string_view`
and `std::string` carry a `String`; the borrowing/owning distinction is
the constructor. -/

namespace attrib

inductive value_t (F : Type) : Type
| int64 (v : Int)
| float64 (v : F)
| text_view (s : String)
deriving DecidableEq

inductive owned_t (F : Type) : Type
| int64 (v : Int)
| float64 (v : F)
| text (s : String)
deriving DecidableEq

/-- Embedding of the converting constructor `value_t(const owned_t& val)`
declared at attribute.hpp line 28.  Its out-of-line body is not part of
this header; the mapping follows the variant structure, which admits only
one lifting: each owned alternative maps to the corresponding alternative
of `value_t`, the owned `std::string` being viewed as a `string_view`. -/
def value_t.ofOwned {F : Type} : owned_t F → value_t F
  | .int64 v => .int64 v
  | .float64 v => .float64 v
  | .text s => .text_view s

end attrib

/-! ### Logger data model — src/unnamed/part_000

Attribute sets are ordered lists of (name, value) pairs; the value type is
a parameter `V`.  `record_t` (spec section 3, constructed only by
`open_record`) is either the invalid sentinel or owns an internal and an
external attribute set. -/

abbrev set_t (V : Type) : Type := List (String × V)

inductive record_t (V : Type) : Type
| invalid
| valid (internal : set_t V) (external : set_t V)
deriving DecidableEq

/-- Modelled from the spec: `feature::scoped_t` (the per-thread scoped
attribute stack, `logger/feature/scoped.hpp`) is not among the sources;
spec section 4.2 specifies `view(external)` as the lazy concatenation of
all active frames, outer-to-inner, followed by `external`, and
`merge(external)` as the same concatenation materialized into `external`. -/
structure scoped_t (V : Type) : Type where
  frames : List (set_t V)
deriving DecidableEq

def scoped_t.view {V : Type} (s : scoped_t V) (external : set_t V) : set_t V :=
  s.frames.flatten ++ external

def scoped_t.merge {V : Type} (s : scoped_t V) (external : set_t V) : set_t V :=
  s.frames.flatten ++ external

/-- The process attribute providers consumed by `populate`
(composite_logger_t lines 166-181): the timestamp source is always
present; pid/tid/lwp are each guarded by a build-time flag
(`BLACKHOLE_HAS_ATTRIBUTE_PID` etc.).  The providers themselves are
opaque external collaborators, so their current outputs are data here. -/
structure Env (V : Type) : Type where
  hasPid : Bool
  pid : V
  hasTid : Bool
  tid : V
  hasLwp : Bool
  lwp : V
  timestamp : V

/-- `composite_logger_t::populate` (lines 166-181): appends the
conditionally compiled process attributes, then always the event
timestamp.  `reserve` is a capacity hint with no observable effect. -/
def populate {V : Type} (env : Env V) : set_t V :=
  (if env.hasPid then [("pid", env.pid)] else []) ++
  (if env.hasTid then [("tid", env.tid)] else []) ++
  (if env.hasLwp then [("lwp", env.lwp)] else []) ++
  [("timestamp", env.timestamp)]

/-- The `handle(record)` operation of a frontend either succeeds or raises
(spec section 6: one operation, raises on failure); the raised value is
opaque. -/
abbrev frontend_t (V : Type) : Type := record_t V → Except Unit Unit

/-- The mutable state `d` of `composite_logger_t` (lines 62-77): the
atomic enabled flag, the filter, the exception-handling policy (kept
abstract as `E`), the ordered frontend list, and the scoped stack
(member `scoped`, line 63).  The two reader/writer locks guard this
state but have no sequential content.  `Args` stands for the
`FilterArgs...` pack. -/
structure composite_state (V Args E : Type) : Type where
  enabled : Bool
  filter : set_t V → Args → Bool
  exception : E
  frontends : List (frontend_t V)
  scoped_stack : scoped_t V

/-- `composite_logger_t::open_record(external, args...)` (lines 135-152),
instrumented with the count of `scoped.merge` materializations (the
counting probe of the spec): return the record together with how many times
`merge` ran.  `popAdd` is the CRTP hook `populate_additional` of the
`mixed_type` subtype (line 147); `external.reserve` is a capacity hint
with no observable effect. -/
def open_record_core {V Args E : Type} (env : Env V)
    (popAdd : set_t V → Args → set_t V)
    (st : composite_state V Args E) (external : set_t V) (args : Args) :
    record_t V × Nat :=
  if !st.enabled then (record_t.invalid, 0)
  else if !st.filter (st.scoped_stack.view external) args then (record_t.invalid, 0)
  else
    (record_t.valid (popAdd (populate env) args) (st.scoped_stack.merge external), 1)

/-- `open_record` as the caller sees it: the record alone. -/
def open_record {V Args E : Type} (env : Env V)
    (popAdd : set_t V → Args → set_t V)
    (st : composite_state V Args E) (external : set_t V) (args : Args) :
    record_t V :=
  (open_record_core env popAdd st external args).1

/-- The no-attribute overload (lines 127-129): delegates with an empty
`attribute::set_t()`. -/
def open_record_noattrs {V Args E : Type} (env : Env V)
    (popAdd : set_t V → Args → set_t V)
    (st : composite_state V Args E) (args : Args) : record_t V :=
  open_record env popAdd st ([] : set_t V) args

/-- The single-pair overload (lines 131-133): delegates with
`attribute::set_t({ pair })`. -/
def open_record_pair {V Args E : Type} (env : Env V)
    (popAdd : set_t V → Args → set_t V)
    (st : composite_state V Args E) (pair : String × V) (args : Args) :
    record_t V :=
  open_record env popAdd st [pair] args

/-- Observable events of one `push` call: invoking frontend number `i`
with the record, and invoking the exception-handling policy. -/
inductive push_event (V : Type) : Type
| handle (index : Nat) (r : record_t V)
| exception_call
deriving DecidableEq

/-- The loop body of `composite_logger_t::push` (lines 156-162): iterate
the frontends from position `i`; each iteration invokes `handle` and, when
it raises, invokes the exception policy and continues. -/
def push_loop {V : Type} (i : Nat) (fs : List (frontend_t V))
    (r : record_t V) : List (push_event V) :=
  match fs with
  | [] => []
  | f :: rest =>
    push_event.handle i r ::
      (match f r with
        | .ok _ => []
        | .error _ => [push_event.exception_call]) ++ push_loop (i + 1) rest r

/-- `composite_logger_t::push(record)` (lines 154-163) as its trace of
observable events.  It is a total function: no exception escapes to the
caller. -/
def push {V Args E : Type} (st : composite_state V Args E)
    (r : record_t V) : List (push_event V) :=
  push_loop 0 st.frontends r

/-- Projection of a push trace to the frontend invocations (index and
record passed). -/
def handle_calls {V : Type} (t : List (push_event V)) : List (Nat × record_t V) :=
  t.filterMap fun e =>
    match e with
    | .handle i r => some (i, r)
    | .exception_call => none

/-- How many times the exception-handling policy ran in a push trace. -/
def exception_calls {V : Type} (t : List (push_event V)) : Nat :=
  (t.filter fun e =>
    match e with
    | .handle _ _ => false
    | .exception_call => true).length

/-- `composite_logger_t::set_filter` (lines 112-115): under the writer
side of the open lock, replace the filter. -/
def composite_state.set_filter {V Args E : Type}
    (st : composite_state V Args E) (f : set_t V → Args → Bool) :
    composite_state V Args E :=
  { st with filter := f }

/-- `composite_logger_t::operator=` for move transfer (lines 90-102),
step by step: first `other.d.enabled = d.enabled.exchange(other.d.enabled)`
exchanges the enabled flags; then, under `multi_lock` over all four
reader/writer mutexes (both open locks and both push locks, in that fixed
argument order), `swap(d.filter, other.d.filter)`,
`swap(d.frontends, other.d.frontends)` and `scoped.swap(other.scoped)`
run.  The result is the pair (destination, source) after the transfer. -/
def move_assign {V Args E : Type} (d o : composite_state V Args E) :
    composite_state V Args E × composite_state V Args E :=
  let exchanged := d.enabled
  let d := { d with enabled := o.enabled }
  let o := { o with enabled := exchanged }
  let tf := d.filter
  let d := { d with filter := o.filter }
  let o := { o with filter := tf }
  let tfr := d.frontends
  let d := { d with frontends := o.frontends }
  let o := { o with frontends := tfr }
  let ts := d.scoped_stack
  let d := { d with scoped_stack := o.scoped_stack }
  let o := { o with scoped_stack := ts }
  (d, o)

/-! ### Severity logger — `verbose_logger_t<Level>` (part_000 lines 206-270)

The attribute value type of the severity logger is concrete enough to
carry the process attributes (numbers), external text, and the severity
level itself (`keyword::severity<level_type>() = level`). -/

inductive attrval (L : Type) : Type
| nat (n : Nat)
| str (s : String)
| sev (l : L)
deriving DecidableEq

/-- The two `static_cast` directions of the severity enumeration:
`ord` is `static_cast<underlying_type>(level)` and `unord` is
`static_cast<level_type>(n)`. -/
structure LevelRepr (L : Type) : Type where
  ord : L → Int
  unord : Int → L

/-- `verbose_logger_t::default_filter` (lines 261-268): ignore the
combined view; accept iff the underlying ordinal of the event level is
greater than or equal to the underlying ordinal of the stored threshold. -/
def default_filter {L : Type} (R : LevelRepr L) (threshold : L) :
    set_t (attrval L) → L → Bool :=
  fun _view level => decide (R.ord threshold ≤ R.ord level)

/-- `verbose_logger_t::populate_additional` (lines 256-259): append the
severity attribute carrying the event level to the internal set. -/
def populate_additional {L : Type} (internal : set_t (attrval L))
    (level : L) : set_t (attrval L) :=
  internal ++ [("severity", attrval.sev level)]

/-- The state of `verbose_logger_t<Level>` (lines 206-270): the composite
base (whose filter-argument pack is the level) plus the atomic
introspectable threshold `level`, stored as the underlying integer
(`std::atomic<underlying_type>`). -/
structure verbose_logger_t (L E : Type) : Type where
  base : composite_state (attrval L) L E
  level : Int

/-- The `verbose_logger_t(level_type level)` constructor (lines 222-225)
on top of the `composite_logger_t` constructor (lines 80-84): enabled,
default exception policy `e`, default filter at the given threshold, no
frontends, empty scoped stack. -/
def verbose_mk {L E : Type} (R : LevelRepr L) (threshold : L) (e : E) :
    verbose_logger_t L E :=
  { base :=
      { enabled := true
        filter := default_filter R threshold
        exception := e
        frontends := []
        scoped_stack := ⟨[]⟩ }
    level := R.ord threshold }

/-- `verbose_logger_t::verbosity` (lines 238-240):
`static_cast<level_type>(level.load())`. -/
def verbosity {L E : Type} (R : LevelRepr L) (lg : verbose_logger_t L E) : L :=
  R.unord lg.level

/-- `verbose_logger_t::set_filter(level)` (lines 242-245): install
`default_filter { level }` through the base `set_filter`, then store the
underlying value of `level` as the threshold. -/
def verbose_set_filter {L E : Type} (R : LevelRepr L)
    (lg : verbose_logger_t L E) (level : L) : verbose_logger_t L E :=
  { base := lg.base.set_filter (default_filter R level)
    level := R.ord level }

/-- `verbose_logger_t::set_filter(level, filter)` (lines 247-250):
install the supplied filter through the base `set_filter`, then store the
underlying value of `level` as the threshold. -/
def verbose_set_filter_custom {L E : Type} (R : LevelRepr L)
    (lg : verbose_logger_t L E) (level : L)
    (f : set_t (attrval L) → L → Bool) : verbose_logger_t L E :=
  { base := lg.base.set_filter f
    level := R.ord level }

/-- `verbose_logger_t::open_record(level, external)` (lines 252-254):
sugar for the base `open_record` with the level as the sole filter
argument, the severity population hook being `populate_additional`. -/
def verbose_open_record {L E : Type} (env : Env (attrval L))
    (lg : verbose_logger_t L E) (level : L)
    (external : set_t (attrval L)) : record_t (attrval L) :=
  open_record env populate_additional lg.base external level

/-! ### Registry and builder — src/unnamed/part_001

`registry_t` (part_001 lines 39-77) is an abstract interface whose
implementation is not among the sources; the lookups are therefore
modelled from the spec.  Factories stay abstract (`S`, `H`, `F`). -/

/-- The NotFound condition raised by unregistered-type lookups
(spec sections 4.5 and 7). -/
inductive lookup_error : Type
| not_found
deriving DecidableEq

/-- Modelled from the spec: the registry state (spec section 3) — three
independent mappings from type name to a constructor strategy, here
association lists keyed by exact name. -/
structure registry_t (S H F : Type) : Type where
  sinks : List (String × S)
  handlers : List (String × H)
  formatters : List (String × F)

/-- Modelled from the spec: `registry_t::sink(type)` (declared at
part_001 line 49) — return the registered sink factory on exact type-name
match, fail with NotFound otherwise. -/
def registry_t.sink {S H F : Type} (r : registry_t S H F) (type : String) :
    Except lookup_error S :=
  match r.sinks.find? (fun p => p.1 == type) with
  | some p => .ok p.2
  | none => .error .not_found

/-- Modelled from the spec: `registry_t::handler(type)` (declared at
part_001 line 52). -/
def registry_t.handler {S H F : Type} (r : registry_t S H F) (type : String) :
    Except lookup_error H :=
  match r.handlers.find? (fun p => p.1 == type) with
  | some p => .ok p.2
  | none => .error .not_found

/-- Modelled from the spec: `registry_t::formatter(type)` (declared at
part_001 line 55). -/
def registry_t.formatter {S H F : Type} (r : registry_t S H F) (type : String) :
    Except lookup_error F :=
  match r.formatters.find? (fun p => p.1 == type) with
  | some p => .ok p.2
  | none => .error .not_found

/-- Modelled from the spec: one handler definition in the configuration
tree — a formatter type name and one-or-more sink type names
(spec section 4.5). -/
structure handler_cfg : Type where
  formatter_type : String
  sink_types : List String
deriving DecidableEq

/-- Modelled from the spec: the configuration a builder walks for one
logger name — zero or more handler definitions. -/
structure logger_cfg : Type where
  handlers : List handler_cfg
deriving DecidableEq

/-- Modelled from the spec: resolve each sink type name through the
registry, failing on the first unregistered one. -/
def resolve_sinks {S H F : Type} (r : registry_t S H F) :
    List String → Except lookup_error (List S)
  | [] => .ok []
  | t :: ts =>
    match r.sink t with
    | .error e => .error e
    | .ok s =>
      match resolve_sinks r ts with
      | .error e => .error e
      | .ok ss => .ok (s :: ss)

/-- Modelled from the spec: build one handler — resolve its formatter and
all its sinks via the registry and combine them. -/
def build_handler {S H F : Type} (r : registry_t S H F) (hc : handler_cfg) :
    Except lookup_error (F × List S) :=
  match r.formatter hc.formatter_type with
  | .error e => .error e
  | .ok f =>
    match resolve_sinks r hc.sink_types with
    | .error e => .error e
    | .ok ss => .ok (f, ss)

/-- Modelled from the spec: `builder_t::build(name)` (declared at
part_001 line 28) — walk the handler definitions of the configuration,
build each, and only then return the assembled logger (the list of built
handlers attached to a fresh core); any lookup failure surfaces before
any logger is returned. -/
def build {S H F : Type} (r : registry_t S H F) :
    List handler_cfg → Except lookup_error (List (F × List S))
  | [] => .ok []
  | hc :: hcs =>
    match build_handler r hc with
    | .error e => .error e
    | .ok h =>
      match build r hcs with
      | .error e => .error e
      | .ok hs => .ok (h :: hs)

/-- Whether the `handle` call of frontend `f` on record `r` raises. -/
def raises {V : Type} (f : frontend_t V) (r : record_t V) : Bool :=
  match f r with
  | .ok _ => false
  | .error _ => true

/-- `logger_base_t::populate_additional` (part_000 lines 202-203): the
plain logger contributes no additional internal attributes. -/
def base_populate_additional {V Args : Type} (internal : set_t V)
    (_ : Args) : set_t V :=
  internal

/-! ### Concrete fixtures used to exercise the theorems on closed inputs -/

def env0 : Env Nat :=
  { hasPid := false, pid := 0, hasTid := false, tid := 0
    hasLwp := false, lwp := 0, timestamp := 7 }

def st_disabled : composite_state Nat Unit Nat :=
  { enabled := false, filter := fun _ _ => true, exception := 0
    frontends := [], scoped_stack := ⟨[]⟩ }

def st_reject : composite_state Nat Unit Nat :=
  { enabled := true, filter := fun _ _ => false, exception := 0
    frontends := [], scoped_stack := ⟨[[("a", 1)]]⟩ }

def d_ex : composite_state Nat Unit Nat :=
  { enabled := true, filter := fun _ _ => true, exception := 0
    frontends := [], scoped_stack := ⟨[]⟩ }

def o_ex : composite_state Nat Unit Nat :=
  { enabled := false, filter := fun _ _ => false, exception := 1
    frontends := [], scoped_stack := ⟨[]⟩ }

/-- A concrete severity enumeration, declared in increasing-ordinal
order as the spec requires. -/
inductive sev_level : Type
| debug
| info
| warning
| error
deriving DecidableEq

def sev_ord : sev_level → Int
  | .debug => 0
  | .info => 1
  | .warning => 2
  | .error => 3

def sev_unord : Int → sev_level :=
  fun n => if n ≤ 0 then .debug else if n = 1 then .info
    else if n = 2 then .warning else .error

def sevR : LevelRepr sev_level := ⟨sev_ord, sev_unord⟩

def envL : Env (attrval sev_level) :=
  { hasPid := true, pid := attrval.nat 42, hasTid := false
    tid := attrval.nat 0, hasLwp := false, lwp := attrval.nat 0
    timestamp := attrval.nat 99 }

/-- A severity logger at threshold WARNING. -/
def lgW : verbose_logger_t sev_level Nat := verbose_mk sevR sev_level.warning 0

/-- A severity logger at threshold INFO. -/
def lg0 : verbose_logger_t sev_level Nat := verbose_mk sevR sev_level.info 0

def f_true : set_t (attrval sev_level) → sev_level → Bool := fun _ _ => true

def registry_empty : registry_t Unit Unit Unit := ⟨[], [], []⟩

/-- A configuration with one handler referencing formatter type "text"
and sink type "file". -/
def cfg_file : logger_cfg := ⟨[⟨"text", ["file"]⟩]⟩

/-! ### Helper lemmas -/

theorem timestamp_mem_populate {V : Type} (env : Env V) :
    ("timestamp", env.timestamp) ∈ populate env := by
  simp [populate]

theorem handle_calls_push_loop {V : Type} (r : record_t V)
    (fs : List (frontend_t V)) (i : Nat) :
    handle_calls (push_loop i fs r) =
      (List.range' i fs.length).map (fun j => (j, r)) := by
  induction fs generalizing i with
  | nil => rfl
  | cons f rest ih =>
    cases hfr : f r with
    | ok u =>
      simp only [push_loop, hfr, List.nil_append, List.length_cons,
        List.range'_succ, List.map_cons, handle_calls, List.filterMap_cons]
      exact congrArg _ (ih (i + 1))
    | error e =>
      simp only [push_loop, hfr, List.cons_append, List.nil_append,
        List.length_cons, List.range'_succ, List.map_cons, handle_calls,
        List.filterMap_cons]
      exact congrArg _ (ih (i + 1))

theorem exception_calls_push_loop {V : Type} (r : record_t V)
    (fs : List (frontend_t V)) (i : Nat) :
    exception_calls (push_loop i fs r) =
      (fs.filter (fun f => raises f r)).length := by
  induction fs generalizing i with
  | nil => rfl
  | cons f rest ih =>
    cases hfr : f r with
    | ok u =>
      simp only [push_loop, hfr, List.nil_append, exception_calls,
        List.filter_cons, raises]
      simpa [exception_calls] using ih (i + 1)
    | error e =>
      simp only [push_loop, hfr, List.cons_append, List.nil_append,
        exception_calls, List.filter_cons, raises]
      simpa [exception_calls] using ih (i + 1)

theorem sink_lookup_not_found {S H F : Type} (r : registry_t S H F)
    (t : String) (h : t ∉ r.sinks.map Prod.fst) :
    r.sink t = Except.error lookup_error.not_found := by
  have hn : r.sinks.find? (fun p => p.1 == t) = none := by
    rw [List.find?_eq_none]
    intro p hp
    simp only [beq_iff_eq]
    intro he
    exact h (List.mem_map.mpr ⟨p, hp, he⟩)
  simp [registry_t.sink, hn]

theorem handler_lookup_not_found {S H F : Type} (r : registry_t S H F)
    (t : String) (h : t ∉ r.handlers.map Prod.fst) :
    r.handler t = Except.error lookup_error.not_found := by
  have hn : r.handlers.find? (fun p => p.1 == t) = none := by
    rw [List.find?_eq_none]
    intro p hp
    simp only [beq_iff_eq]
    intro he
    exact h (List.mem_map.mpr ⟨p, hp, he⟩)
  simp [registry_t.handler, hn]

theorem formatter_lookup_not_found {S H F : Type} (r : registry_t S H F)
    (t : String) (h : t ∉ r.formatters.map Prod.fst) :
    r.formatter t = Except.error lookup_error.not_found := by
  have hn : r.formatters.find? (fun p => p.1 == t) = none := by
    rw [List.find?_eq_none]
    intro p hp
    simp only [beq_iff_eq]
    intro he
    exact h (List.mem_map.mpr ⟨p, hp, he⟩)
  simp [registry_t.formatter, hn]

theorem resolve_sinks_not_found {S H F : Type} (r : registry_t S H F)
    (ts : List String) (h : ∃ s ∈ ts, s ∉ r.sinks.map Prod.fst) :
    resolve_sinks r ts = Except.error lookup_error.not_found := by
  induction ts with
  | nil => simp at h
  | cons t rest ih =>
    obtain ⟨s, hs, hbad⟩ := h
    rcases List.mem_cons.mp hs with heq | hmem
    · subst heq
      simp [resolve_sinks, sink_lookup_not_found r s hbad]
    · cases hl : r.sink t with
      | error e =>
        cases e
        simp [resolve_sinks, hl]
      | ok v =>
        simp [resolve_sinks, hl, ih ⟨s, hmem, hbad⟩]

theorem build_handler_not_found {S H F : Type} (r : registry_t S H F)
    (hc : handler_cfg)
    (h : hc.formatter_type ∉ r.formatters.map Prod.fst ∨
      ∃ s ∈ hc.sink_types, s ∉ r.sinks.map Prod.fst) :
    build_handler r hc = Except.error lookup_error.not_found := by
  rcases h with hbad | hbad
  · simp [build_handler, formatter_lookup_not_found r _ hbad]
  · cases hl : r.formatter hc.formatter_type with
    | error e =>
      cases e
      simp [build_handler, hl]
    | ok v =>
      simp [build_handler, hl, resolve_sinks_not_found r _ hbad]

theorem build_not_found {S H F : Type} (r : registry_t S H F)
    (hcs : List handler_cfg)
    (h : ∃ hc ∈ hcs, hc.formatter_type ∉ r.formatters.map Prod.fst ∨
      ∃ s ∈ hc.sink_types, s ∉ r.sinks.map Prod.fst) :
    build r hcs = Except.error lookup_error.not_found := by
  induction hcs with
  | nil => simp at h
  | cons hc rest ih =>
    obtain ⟨hx, hmem, hbad⟩ := h
    rcases List.mem_cons.mp hmem with heq | hmem2
    · subst heq
      simp [build, build_handler_not_found r hx hbad]
    · cases hl : build_handler r hc with
      | error e =>
        cases e
        simp [build, hl]
      | ok v =>
        simp [build, hl, ih ⟨hx, hmem2, hbad⟩]

/-! ### Claim theorems -/

/-- Claim C1: for every record pushed into a core with any finite list of
attached frontends, `push` invokes the `handle` operation of each attached
frontend exactly once, in attachment order, with that record; for each
frontend whose `handle` raises, the exception-handling policy is invoked
(once per failing frontend) and iteration continues; and `push` never
raises to its caller — it is a total function into a plain event trace,
every raise being absorbed inside the loop. -/
theorem C1_push_frontend_isolation {V Args E : Type}
    (st : composite_state V Args E) (r : record_t V) :
    handle_calls (push st r) =
      (List.range st.frontends.length).map (fun i => (i, r)) ∧
    exception_calls (push st r) =
      (st.frontends.filter (fun f => raises f r)).length := by
  refine ⟨?_, ?_⟩
  · rw [push, handle_calls_push_loop, List.range_eq_range']
  · rw [push, exception_calls_push_loop]

/-- Claim C2: whenever the enabled flag of a core is false, `open_record`
returns the invalid sentinel for every external attribute set and every
filter argument, whatever the installed filter — the filter branch is
never reached. -/
theorem C2_disabled_open_record_invalid {V Args E : Type} (env : Env V)
    (popAdd : set_t V → Args → set_t V) (st : composite_state V Args E)
    (external : set_t V) (args : Args) (h : st.enabled = false) :
    open_record env popAdd st external args = record_t.invalid := by
  simp [open_record, open_record_core, h]

/-- Witness for C2 on a concrete disabled core. -/
theorem C2_witness :
    st_disabled.enabled = false ∧
    open_record env0 base_populate_additional st_disabled [] () =
      record_t.invalid :=
  ⟨rfl, C2_disabled_open_record_invalid env0 base_populate_additional
    st_disabled [] () rfl⟩

/-- Claim C3: for an enabled core whose filter rejects the combined
scoped view plus arguments, `open_record` returns the invalid sentinel
and performs zero `merge` materializations of the scoped attributes into
the external set (the instrumented count in `open_record_core`). -/
theorem C3_filter_false_no_merge {V Args E : Type} (env : Env V)
    (popAdd : set_t V → Args → set_t V) (st : composite_state V Args E)
    (external : set_t V) (args : Args)
    (hen : st.enabled = true)
    (hf : st.filter (st.scoped_stack.view external) args = false) :
    open_record_core env popAdd st external args = (record_t.invalid, 0) := by
  simp [open_record_core, hen, hf]

/-- Witness for C3 on a concrete rejecting core with a non-empty scoped
stack. -/
theorem C3_witness :
    st_reject.enabled = true ∧
    st_reject.filter (st_reject.scoped_stack.view []) () = false ∧
    open_record_core env0 base_populate_additional st_reject [] () =
      (record_t.invalid, 0) :=
  ⟨rfl, rfl, C3_filter_false_no_merge env0 base_populate_additional
    st_reject [] () rfl rfl⟩

/-- Claim C4: an enabled severity logger running the default filter at
threshold `T` opens a valid record exactly when the underlying ordinal of
the event level is at least the ordinal of `T`; a valid record carries in
its internal set the severity attribute with the event level, and always
the event-timestamp attribute. -/
theorem C4_severity_gate {L E : Type} (R : LevelRepr L)
    (env : Env (attrval L)) (lg : verbose_logger_t L E) (T : L)
    (hen : lg.base.enabled = true)
    (hf : lg.base.filter = default_filter R T)
    (level : L) (external : set_t (attrval L)) :
    (verbose_open_record env lg level external ≠ record_t.invalid ↔
      R.ord T ≤ R.ord level) ∧
    (∀ internal ext2,
      verbose_open_record env lg level external =
        record_t.valid internal ext2 →
      ("severity", attrval.sev level) ∈ internal ∧
      ("timestamp", env.timestamp) ∈ internal) := by
  by_cases hord : R.ord T ≤ R.ord level
  · refine ⟨by simp [verbose_open_record, open_record, open_record_core,
      hen, hf, default_filter, hord], ?_⟩
    intro internal ext2 heq
    have hres : verbose_open_record env lg level external =
        record_t.valid (populate_additional (populate env) level)
          (lg.base.scoped_stack.merge external) := by
      simp [verbose_open_record, open_record, open_record_core, hen, hf,
        default_filter, hord]
    rw [hres] at heq
    injection heq with h1 h2
    subst h1
    exact ⟨by simp [populate_additional],
      by simp [populate_additional, timestamp_mem_populate]⟩
  · refine ⟨by simp [verbose_open_record, open_record, open_record_core,
      hen, hf, default_filter, hord], ?_⟩
    intro internal ext2 heq
    simp [verbose_open_record, open_record, open_record_core, hen, hf,
      default_filter, hord] at heq

/-- Witness for C4 on a concrete severity logger at threshold WARNING,
opening a record at level ERROR. -/
theorem C4_witness :
    lgW.base.enabled = true ∧
    lgW.base.filter = default_filter sevR sev_level.warning ∧
    ((verbose_open_record envL lgW sev_level.error [] ≠ record_t.invalid ↔
      sevR.ord sev_level.warning ≤ sevR.ord sev_level.error) ∧
    (∀ internal ext2,
      verbose_open_record envL lgW sev_level.error [] =
        record_t.valid internal ext2 →
      ("severity", attrval.sev sev_level.error) ∈ internal ∧
      ("timestamp", envL.timestamp) ∈ internal)) :=
  ⟨rfl, rfl, C4_severity_gate sevR envL lgW sev_level.warning rfl rfl
    sev_level.error []⟩

/-- Claim C5 as amended: the conversion embedded from the declared
constructor `value_t(const owned_t&)` — owning to borrowing — is total,
injective (it loses nothing), and views the owned text verbatim.  The
claim as frozen states the opposite direction: that an owning value is
constructible from a borrowing one and that no borrowing-from-owning
operation exists; the header declares exactly the borrowing-from-owning
constructor and no owning-from-borrowing one. -/
theorem C5_owned_to_view_total {F : Type} :
    (∀ v w : attrib.owned_t F,
      attrib.value_t.ofOwned v = attrib.value_t.ofOwned w → v = w) ∧
    (∀ s : String,
      attrib.value_t.ofOwned (.text s : attrib.owned_t F) =
        attrib.value_t.text_view s) := by
  refine ⟨?_, fun s => rfl⟩
  intro v w h
  cases v <;> cases w <;> simp [attrib.value_t.ofOwned] at h <;> simp [h]

/-- Witness for C5 at a concrete pair of owned values. -/
theorem C5_witness :
    attrib.value_t.ofOwned (.int64 3 : attrib.owned_t Unit) =
      attrib.value_t.ofOwned (.int64 3 : attrib.owned_t Unit) ∧
    (.int64 3 : attrib.owned_t Unit) = (.int64 3 : attrib.owned_t Unit) :=
  ⟨rfl, C5_owned_to_view_total.1 _ _ rfl⟩

/-- Counterexample to C5 as frozen: the direction the claim says is
disallowed ("no such operation exists") is exactly the conversion the
header declares — here it runs on a concrete owned text and produces the
borrowing view. -/
theorem C5_counterexample :
    attrib.value_t.ofOwned (.text "x" : attrib.owned_t Unit) =
      attrib.value_t.text_view "x" := rfl

/-- Claim C6 as amended: the move transfer exchanges the enabled flags
and swaps the filter, the frontend list and the scoped-stack state, so
the destination ends with the former filter, frontends, scoped state and
enabled flag of the source and vice versa; the exception policy is NOT
swapped — each instance keeps its own. -/
theorem C6_move_assign_swaps {V Args E : Type}
    (d o : composite_state V Args E) :
    (move_assign d o).1.enabled = o.enabled ∧
    (move_assign d o).1.filter = o.filter ∧
    (move_assign d o).1.frontends = o.frontends ∧
    (move_assign d o).1.scoped_stack = o.scoped_stack ∧
    (move_assign d o).1.exception = d.exception ∧
    (move_assign d o).2.enabled = d.enabled ∧
    (move_assign d o).2.filter = d.filter ∧
    (move_assign d o).2.frontends = d.frontends ∧
    (move_assign d o).2.scoped_stack = d.scoped_stack ∧
    (move_assign d o).2.exception = o.exception :=
  ⟨rfl, rfl, rfl, rfl, rfl, rfl, rfl, rfl, rfl, rfl⟩

/-- Counterexample to C6 as frozen: on concrete states whose exception
policies differ, after the transfer the destination still holds its own
former exception policy, not the one of the source — the claim that the
exception policy is swapped fails. -/
theorem C6_counterexample :
    (move_assign d_ex o_ex).1.exception = d_ex.exception ∧
    (move_assign d_ex o_ex).1.exception ≠ o_ex.exception ∧
    (move_assign d_ex o_ex).2.exception = o_ex.exception ∧
    (move_assign d_ex o_ex).2.exception ≠ d_ex.exception := by
  refine ⟨rfl, ?_, rfl, ?_⟩ <;> simp [move_assign, d_ex, o_ex]

/-- Claim C7: `set_filter(level)` installs the default ordinal filter at
the new threshold and `verbosity()` subsequently returns that level;
`set_filter(level, custom)` installs the supplied predicate while still
recording the level as the introspectable threshold.  The hypothesis is
the enumeration round-trip `static_cast<level_type>(static_cast<
underlying_type>(level)) = level`, which holds for every declared
enumerator. -/
theorem C7_set_filter_threshold {L E : Type} (R : LevelRepr L)
    (lg : verbose_logger_t L E) (level : L)
    (f : set_t (attrval L) → L → Bool)
    (hR : R.unord (R.ord level) = level) :
    (verbose_set_filter R lg level).base.filter = default_filter R level ∧
    verbosity R (verbose_set_filter R lg level) = level ∧
    (verbose_set_filter_custom R lg level f).base.filter = f ∧
    verbosity R (verbose_set_filter_custom R lg level f) = level := by
  refine ⟨rfl, ?_, rfl, ?_⟩ <;>
    simp [verbosity, verbose_set_filter, verbose_set_filter_custom, hR]

/-- Witness for C7 on a concrete severity logger re-thresholded to
WARNING. -/
theorem C7_witness :
    sevR.unord (sevR.ord sev_level.warning) = sev_level.warning ∧
    ((verbose_set_filter sevR lg0 sev_level.warning).base.filter =
      default_filter sevR sev_level.warning ∧
    verbosity sevR (verbose_set_filter sevR lg0 sev_level.warning) =
      sev_level.warning ∧
    (verbose_set_filter_custom sevR lg0 sev_level.warning f_true).base.filter =
      f_true ∧
    verbosity sevR (verbose_set_filter_custom sevR lg0 sev_level.warning
      f_true) = sev_level.warning) :=
  ⟨by decide, C7_set_filter_threshold sevR lg0 sev_level.warning f_true
    (by decide)⟩

/-- Claim C8: looking up a type name that is not registered in the
corresponding mapping fails with the NotFound condition for sinks,
handlers and formatters alike; and building against a configuration that
references an unregistered formatter or sink type fails with the same
condition at build time, before any logger is returned. -/
theorem C8_registry_not_found {S H F : Type} (r : registry_t S H F)
    (t : String) (cfg : logger_cfg) :
    (t ∉ r.sinks.map Prod.fst →
      r.sink t = Except.error lookup_error.not_found) ∧
    (t ∉ r.handlers.map Prod.fst →
      r.handler t = Except.error lookup_error.not_found) ∧
    (t ∉ r.formatters.map Prod.fst →
      r.formatter t = Except.error lookup_error.not_found) ∧
    ((∃ hc ∈ cfg.handlers,
        hc.formatter_type ∉ r.formatters.map Prod.fst ∨
        ∃ s ∈ hc.sink_types, s ∉ r.sinks.map Prod.fst) →
      build r cfg.handlers = Except.error lookup_error.not_found) :=
  ⟨sink_lookup_not_found r t, handler_lookup_not_found r t,
    formatter_lookup_not_found r t, build_not_found r cfg.handlers⟩

/-- Witness for C8: the empty registry rejects a sink lookup for "file"
with NotFound, and building the configuration that references sink type
"file" fails with NotFound. -/
theorem C8_witness :
    ("file" ∉ registry_empty.sinks.map Prod.fst) ∧
    (∃ hc ∈ cfg_file.handlers,
      hc.formatter_type ∉ registry_empty.formatters.map Prod.fst ∨
      ∃ s ∈ hc.sink_types, s ∉ registry_empty.sinks.map Prod.fst) ∧
    registry_empty.sink "file" = Except.error lookup_error.not_found ∧
    build registry_empty cfg_file.handlers =
      Except.error lookup_error.not_found := by
  have h := C8_registry_not_found registry_empty "file" cfg_file
  have h1 : ("file" : String) ∉ registry_empty.sinks.map Prod.fst := by
    simp [registry_empty]
  have h2 : ∃ hc ∈ cfg_file.handlers,
      hc.formatter_type ∉ registry_empty.formatters.map Prod.fst ∨
      ∃ s ∈ hc.sink_types, s ∉ registry_empty.sinks.map Prod.fst := by
    refine ⟨⟨"text", ["file"]⟩, by simp [cfg_file], Or.inl ?_⟩
    simp [registry_empty]
  exact ⟨h1, h2, h.1 h1, h.2.2.2 h2⟩

/-- Claim C10: the no-attribute overload of `open_record` coincides with
the general overload at the empty attribute set, and the single-pair
overload coincides with the general overload at the singleton set holding
that pair. -/
theorem C10_open_record_overloads {V Args E : Type} (env : Env V)
    (popAdd : set_t V → Args → set_t V) (st : composite_state V Args E)
    (pair : String × V) (args : Args) :
    open_record_noattrs env popAdd st args =
      open_record env popAdd st [] args ∧
    open_record_pair env popAdd st pair args =
      open_record env popAdd st [pair] args :=
  ⟨rfl, rfl⟩

end Blackhole
